import Mathlib

/-!
Verification of the classification and deduplication engine of
`nova-automated-cluster-scanner`.

The definitions below are a shallow embedding of the Go sources:
`pkg/nova` (scanner: glob matching, severity, cross-resource dedup),
`pkg/config` (configuration predicates), and `pkg/github` (issue titles,
bodies, and the create/deduplicate flow of `IssueManager`).  Strings are
modelled as Lean `String` / `List Char`; the Go `map[string]bool` namespace
set is modelled as the list of keys that are set to `true`.
-/

namespace Nova

/-! Section: semantic versions (`github.com/Masterminds/semver/v3`).

`semver.NewVersion` accepts the loose grammar
`v? major (.minor (.patch)?)? (-prerelease)? (+metadata)?` where the numeric
fields are decimal digit runs and prerelease/metadata are nonempty dot-separated
runs of `[0-9A-Za-z-]` characters, anchored to the whole string.  Numeric
fields are modelled as `Nat`. -/

structure Semver where
  major : Nat
  minor : Nat
  patch : Nat
  pre : List Char
  metadata : List Char
deriving DecidableEq, Repr

def digitsToNat (ds : List Char) : Nat :=
  ds.foldl (fun a c => a * 10 + (c.toNat - '0'.toNat)) 0

/-- Go `strconv.ParseUint(s, 10, 64)` succeeds on a digit run exactly when its
value fits in 64 bits; `semver.NewVersion` propagates the overflow error. -/
def fitsUint64 (ds : List Char) : Bool :=
  decide (digitsToNat ds < 18446744073709551616)

def isIdentChar (c : Char) : Bool :=
  c.isDigit || c.isAlpha || c == '-'

/-- A nonempty dot-separated sequence of nonempty identifier runs, i.e. the
body of a prerelease or build-metadata group. -/
def validIdents (l : List Char) : Bool :=
  !l.isEmpty && (l.splitOn '.').all fun seg => !seg.isEmpty && seg.all isIdentChar

/-- One optional `.digits` group.  `none` marks a failing group: a dot not
followed by digits (the whole anchored pattern fails) or a digit run outside
the `ParseUint` 64-bit range; `some none` marks an absent group. -/
def parseNumGroup (s : List Char) : Option (Option (Nat × List Char)) :=
  match s with
  | '.' :: t =>
    let p := t.span Char.isDigit
    if p.1.isEmpty then none
    else if fitsUint64 p.1 then some (some (digitsToNat p.1, p.2))
    else none
  | _ => some none

/-- One optional `tag idents` group (tag is `-` for prerelease, `+` for
metadata). -/
def parseTaggedIdents (tag : Char) (s : List Char) : Option (Option (List Char × List Char)) :=
  match s with
  | c :: t =>
    if c = tag then
      let p := t.span fun ch => isIdentChar ch || ch == '.'
      if validIdents p.1 then some (some (p.1, p.2)) else none
    else some none
  | [] => some none

/-- Go `semver.NewVersion`: parse a version string, returning `none` exactly
when the Go call returns an error — on a regex mismatch or on a numeric
component that overflows `ParseUint`'s 64-bit range. -/
def parseSemver (input : List Char) : Option Semver :=
  let s := match input with
    | 'v' :: t => t
    | _ => input
  let maj := s.span Char.isDigit
  if maj.1.isEmpty then none
  else if !fitsUint64 maj.1 then none
  else match parseNumGroup maj.2 with
  | none => none
  | some minorRes =>
    let minorVal := (minorRes.map Prod.fst).getD 0
    let r2 := (minorRes.map Prod.snd).getD maj.2
    match parseNumGroup r2 with
    | none => none
    | some patchRes =>
      let patchVal := (patchRes.map Prod.fst).getD 0
      let r3 := (patchRes.map Prod.snd).getD r2
      match parseTaggedIdents '-' r3 with
      | none => none
      | some preRes =>
        let preVal := (preRes.map Prod.fst).getD []
        let r4 := (preRes.map Prod.snd).getD r3
        match parseTaggedIdents '+' r4 with
        | none => none
        | some metaRes =>
          let metaVal := (metaRes.map Prod.fst).getD []
          let r5 := (metaRes.map Prod.snd).getD r4
          if r5.isEmpty then
            some ⟨digitsToNat maj.1, minorVal, patchVal, preVal, metaVal⟩
          else none

/-! Section: data model (`pkg/nova` output structs).

Only the fields read by the classification engine are retained. -/

structure VersionInfo where
  version : String
  appVersion : String := ""
deriving DecidableEq, Repr

structure ReleaseOutput where
  releaseName : String
  chartName : String
  nspace : String
  installed : VersionInfo
  latest : VersionInfo
  isOld : Bool
  deprecated : Bool := false
deriving DecidableEq, Repr

structure WorkloadOutput where
  name : String
  nspace : String
  kind : String := ""
  container : String := ""
deriving DecidableEq, Repr

structure ContainerOutput where
  name : String
  currentTag : String
  latestTag : String
  isOld : Bool := true
  affectedWorkloads : List WorkloadOutput := []
deriving DecidableEq, Repr

/-! Section: configuration (`pkg/config`), projected to the fields the engine reads. -/

structure Config where
  ignoreReleases : List String := []
  ignoreCharts : List String := []
  ignoreImages : List String := []
  ignoreVersionPatterns : List String := []
  minSeverity : String := "minor"
  dryRun : Bool := false
deriving Repr

/-- Go `Config.SeverityLevel`: numeric threshold, unrecognized values default to
minor (1). -/
def severityLevel (cfg : Config) : Nat :=
  if cfg.minSeverity = "critical" then 3
  else if cfg.minSeverity = "major" then 2
  else 1

/-- Go `strings.Contains(version, pattern)`. -/
def containsSubstr (version pat : String) : Bool :=
  decide (pat.toList <:+: version.toList)

/-- Go `Config.ShouldIgnoreVersion`: the version matches some global blacklist
pattern as a substring. -/
def shouldIgnoreVersion (cfg : Config) (version : String) : Bool :=
  cfg.ignoreVersionPatterns.any fun pat => containsSubstr version pat

/-- Modelled from the spec: `Config.ShouldIgnoreChartVersion` and the
`ChartVersionIgnorePatterns` map are exercised by `config_test.go` but their
implementation is not among the provided sources.  Per the spec, blacklist
substrings come as a global list and per-chart-name override lists; the global
and the chart-specific check are both evaluated, and a match in either is
sufficient to drop the finding. -/
def shouldIgnoreChartVersion (globalPatterns : List String)
    (chartPatterns : List (String × List String)) (chartName version : String) : Bool :=
  (globalPatterns.any fun pat => containsSubstr version pat) ||
    (((chartPatterns.lookup chartName).getD []).any fun pat => containsSubstr version pat)

/-! Section: version comparator (`pkg/nova/scanner.go`). -/

/-- Go `calculateSeverity`: 3 = critical (major bump), 2 = major (minor bump),
1 = minor (patch bump), 0 = none. -/
def calculateSeverity (current latest : Semver) : Nat :=
  if latest.major > current.major then 3
  else if latest.minor > current.minor then 2
  else if latest.patch > current.patch then 1
  else 0

/-- Go `Scanner.meetsMinSeverity`: unparsable versions are always included. -/
def meetsMinSeverity (cfg : Config) (currentVersion latestVersion : String) : Bool :=
  match parseSemver currentVersion.toList with
  | none => true
  | some current =>
    match parseSemver latestVersion.toList with
    | none => true
    | some latest => calculateSeverity current latest ≥ severityLevel cfg

/-! Section: pattern matcher (`matchGlob`). -/

/-- The scan of `matchGlob`'s `*/X` branch: try `f` on every suffix of the
candidate that starts immediately after a `/`. -/
def anySlashSuffix (f : List Char → Bool) : List Char → Bool
  | [] => false
  | c :: t => (c == '/' && f t) || anySlashSuffix f t

/-- The trailing-`*` branch of `matchGlob`: `len(pattern) > 1`, the pattern
ends in `*`, and the candidate starts with the pattern minus that star. -/
def trailingStar (p s : List Char) : Bool :=
  decide (1 < p.length) && (p.getLast? == some '*') && p.dropLast.isPrefixOf s

/-- Go `matchGlob pattern s` from `pkg/nova/scanner.go`: the four checks in the
source's fall-through order (`*`, exact, `*/X` scan, trailing `*`). -/
def matchGlob : List Char → List Char → Bool
  | p, s =>
    (p == ['*']) || (p == s)
      || (match p with
          | '*' :: '/' :: x :: xs => anySlashSuffix (matchGlob (x :: xs)) s
          | _ => false)
      || trailingStar p s

def matchGlobStr (pattern s : String) : Bool :=
  matchGlob pattern.toList s.toList

/-! Section: inventory filter and cross-resource deduplicator. -/

/-- Go `Scanner.shouldIgnoreRelease`: exact match against the release-name or
chart-name ignore lists. -/
def shouldIgnoreRelease (cfg : Config) (r : ReleaseOutput) : Bool :=
  cfg.ignoreReleases.contains r.releaseName || cfg.ignoreCharts.contains r.chartName

/-- Go `Scanner.shouldIgnoreContainer`: glob match against the image ignore
patterns. -/
def shouldIgnoreContainer (cfg : Config) (c : ContainerOutput) : Bool :=
  cfg.ignoreImages.any fun pat => matchGlobStr pat c.name

/-- Go `Scanner.shouldSkipContainerForHelm`: skip iff the namespace set and the
workload list are nonempty and every affected workload's namespace is in the
set. -/
def shouldSkipContainerForHelm (c : ContainerOutput) (skipNamespaces : List String) : Bool :=
  if skipNamespaces.length = 0 then false
  else if c.affectedWorkloads.length = 0 then false
  else c.affectedWorkloads.all fun w => skipNamespaces.contains w.nspace

/-- The glob language as the claim words it: `*` matches everything; a pattern
matches itself; `*/X` matches a candidate when some suffix starting right
after a `/` matches `X` recursively; a pattern ending in `*` matches any
candidate starting with its literal prefix; nothing else matches. -/
inductive GlobSpec : List Char → List Char → Prop where
  | star (s : List Char) : GlobSpec ['*'] s
  | exact (s : List Char) : GlobSpec s s
  | slash (x pre suf : List Char) (hx : x ≠ []) (h : GlobSpec x suf) :
      GlobSpec ('*' :: '/' :: x) (pre ++ '/' :: suf)
  | prefixStar (q rest : List Char) : GlobSpec (q ++ ['*']) (q ++ rest)

/-- The pure filtering pipeline of `Scanner.ScanHelm`: drop ignored releases,
then keep outdated releases whose latest version is not blacklisted and which
meet the severity threshold.  Returns (filtered, outdated). -/
def scanHelmFilter (cfg : Config) (releases : List ReleaseOutput) :
    List ReleaseOutput × List ReleaseOutput :=
  let filtered := releases.filter fun r => !shouldIgnoreRelease cfg r
  let outdated := filtered.filter fun r =>
    r.isOld && !shouldIgnoreVersion cfg r.latest.version
      && meetsMinSeverity cfg r.installed.version r.latest.version
  (filtered, outdated)

/-! Section: issue manager (`pkg/github`). -/

def labelNovaScan : String := "nova-scan"

def labelClaudeCode : String := "claude-code"

/-- The labels passed to `Issues.Create`. -/
def issueLabels : List String := [labelNovaScan, labelClaudeCode]

/-- Go `escapeSearchQuery`: drop quote and backslash characters (two sequential
`strings.ReplaceAll` with the empty replacement, i.e. a filter). -/
def escapeSearchQuery (s : String) : String :=
  String.mk (s.toList.filter fun c => !(c == '"' || c == '\\'))

/-- Go `FormatHelmIssueTitle`. -/
def formatHelmIssueTitle (r : ReleaseOutput) : String :=
  "[Nova] Update Helm chart: " ++ r.releaseName ++ " (" ++ r.installed.version
    ++ " → " ++ r.latest.version ++ ")"

/-- Go `FormatContainerIssueTitle`. -/
def formatContainerIssueTitle (c : ContainerOutput) : String :=
  "[Nova] Update container image: " ++ c.name ++ " (" ++ c.currentTag
    ++ " → " ++ c.latestTag ++ ")"

def backtick (s : String) : String := "`" ++ s ++ "`"

def formatYAMLSnippet (latestVersion currentVersion : String) : String :=
  "```yaml\nspec:\n  chart:\n    spec:\n      version: \"" ++ latestVersion
    ++ "\"  # was: " ++ currentVersion ++ "\n```"

def formatHelmCommands (releaseName nspace : String) : String :=
  "```bash" ++ "\n# Check current HelmRelease status\nflux get helmreleases -n "
    ++ nspace ++ " | grep " ++ releaseName
    ++ "\n\n# Force reconciliation after commit\nflux reconcile helmrelease "
    ++ releaseName ++ " -n " ++ nspace
    ++ "\n\n# View Helm release history\nhelm history " ++ releaseName ++ " -n "
    ++ nspace ++ "\n" ++ "```"

def formatWorkloadTable (workloads : List WorkloadOutput) : String :=
  if workloads.length = 0 then "_No workload information available_"
  else
    "| Workload | Namespace | Kind | Container |\n"
      ++ "|----------|-----------|------|----------|\n"
      ++ String.join (workloads.map fun w =>
          "| " ++ w.name ++ " | " ++ w.nspace ++ " | " ++ w.kind ++ " | "
            ++ w.container ++ " |\n")

/-- Go `FormatHelmIssueBody`. -/
def formatHelmIssueBody (r : ReleaseOutput) : String :=
  "## Outdated Helm Chart Detected\n\n| Field | Value |\n|-------|-------|\n| Release Name | "
    ++ backtick r.releaseName ++ " |\n| Chart Name | " ++ backtick r.chartName
    ++ " |\n| Namespace | " ++ backtick r.nspace
    ++ " |\n| Current Version | " ++ backtick r.installed.version
    ++ " |\n| Latest Version | " ++ backtick r.latest.version
    ++ " |\n| Deprecated | " ++ (if r.deprecated then "Yes" else "No")
    ++ " |\n\n## Update Checklist\n\n- [ ] Review changelog for breaking changes between "
    ++ r.installed.version ++ " and " ++ r.latest.version
    ++ "\n- [ ] Update HelmRelease manifest with new version\n- [ ] Commit and push to trigger Flux reconciliation\n- [ ] Verify Flux successfully reconciles the HelmRelease\n- [ ] Check application health post-upgrade\n\n## Flux Update (GitOps)\n\nUpdate your HelmRelease manifest:\n\n"
    ++ formatYAMLSnippet r.latest.version r.installed.version
    ++ "\n\n## Useful Commands\n\n" ++ formatHelmCommands r.releaseName r.nspace
    ++ "\n\n---\n*This issue was automatically created by nova-scanner*\n"

/-- Go `FormatContainerIssueBody`. -/
def formatContainerIssueBody (c : ContainerOutput) : String :=
  "## Outdated Container Image Detected\n\n| Field | Value |\n|-------|-------|\n| Image | "
    ++ backtick c.name ++ " |\n| Current Tag | " ++ backtick c.currentTag
    ++ " |\n| Latest Tag | " ++ backtick c.latestTag
    ++ " |\n\n### Affected Workloads\n\n" ++ formatWorkloadTable c.affectedWorkloads
    ++ "\n\n## Update Checklist\n\n- [ ] Review release notes for breaking changes\n- [ ] Update image tag in deployment manifest\n- [ ] Commit and push to trigger Flux reconciliation\n- [ ] Verify pods restart with new image\n- [ ] Check application health\n\n---\n*This issue was automatically created by nova-scanner*\n"

/-- The two tracker operations `IssueManager` consumes.  `search` receives the
escaped title text that the Go code embeds in its
`repo:... is:issue is:open label:nova-scan in:title "..."` query (the fixed
query parts are reflected in a concrete tracker's semantics); `none` models a
failed call.  `create` receives title, body and labels and returns the new
tracker state and the created issue's URL, or `none` on failure. -/
structure TrackerOps (σ : Type) where
  search : σ → String → Option Nat
  create : σ → String → String → List String → Option (σ × String)

/-- The per-item outcome, mirroring the logger events of `IssueManager`
(created / skipped-duplicate / dry-run would-create) and the returned error
cases. -/
inductive IssueOutcome where
  | created (title url : String)
  | skippedDuplicate (title : String)
  | wouldCreate (title : String)
  | queryError (title : String)
  | createError (title : String)
deriving DecidableEq, Repr

/-- Go `IssueManager.CreateHelmIssue`: compute the canonical title, query for an
existing open issue (`issueExists` is `search > 0`), propagate a query
failure, skip duplicates, honour dry-run, otherwise create. -/
def createHelmIssue {σ : Type} (ops : TrackerOps σ) (dryRun : Bool) (st : σ)
    (r : ReleaseOutput) : σ × IssueOutcome :=
  let title := formatHelmIssueTitle r
  match ops.search st (escapeSearchQuery title) with
  | none => (st, .queryError title)
  | some n =>
    if n > 0 then (st, .skippedDuplicate title)
    else if dryRun then (st, .wouldCreate title)
    else
      match ops.create st title (formatHelmIssueBody r) issueLabels with
      | none => (st, .createError title)
      | some res => (res.1, .created title res.2)

/-- Go `IssueManager.CreateContainerIssue`. -/
def createContainerIssue {σ : Type} (ops : TrackerOps σ) (dryRun : Bool) (st : σ)
    (c : ContainerOutput) : σ × IssueOutcome :=
  let title := formatContainerIssueTitle c
  match ops.search st (escapeSearchQuery title) with
  | none => (st, .queryError title)
  | some n =>
    if n > 0 then (st, .skippedDuplicate title)
    else if dryRun then (st, .wouldCreate title)
    else
      match ops.create st title (formatContainerIssueBody c) issueLabels with
      | none => (st, .createError title)
      | some res => (res.1, .created title res.2)

/-- The issue-creation loop of `cmd/scanner/main.go` over a Helm
`ActionableSet`: per-item errors are recorded and the loop continues. -/
def runHelmIssues {σ : Type} (ops : TrackerOps σ) (dryRun : Bool) :
    σ → List ReleaseOutput → σ × List IssueOutcome
  | st, [] => (st, [])
  | st, r :: rs =>
    let step := createHelmIssue ops dryRun st r
    let rest := runHelmIssues ops dryRun step.1 rs
    (rest.1, step.2 :: rest.2)

/-- A GitHub issue as far as the engine can observe it. -/
structure GhIssue where
  title : String
  body : String
  labels : List String
  isOpen : Bool
deriving DecidableEq, Repr

/-- The tracker premise of the idempotence property: an open, `nova-scan`
labeled issue whose title contains the searched text. -/
def issueMatches (text : String) (i : GhIssue) : Bool :=
  i.isOpen && i.labels.contains labelNovaScan && decide (text.toList <:+: i.title.toList)

/-- A tracker that persists created tickets and whose search counts the open
`nova-scan` issues whose title contains the searched text. -/
def novaOps : TrackerOps (List GhIssue) where
  search st text := some ((st.filter (issueMatches text)).length)
  create st title body labels :=
    some (st ++ [⟨title, body, labels, true⟩], "issue-" ++ toString (st.length + 1))

/-! Section: claim-side definitions for the severity gate. -/

/-- Severity formula exactly as the specification words it: 3 (critical) on a
major bump, else 2 (major) on a minor bump, else 1 (minor) on a patch bump,
else 0. -/
def specSeverity (current latest : Semver) : Nat :=
  if latest.major > current.major then 3
  else if latest.minor > current.minor then 2
  else if latest.patch > current.patch then 1
  else 0

/-- Threshold mapping as the specification words it: minor = 1, major = 2,
critical = 3, anything unrecognized treated as minor. -/
def specThresholdLevel (t : String) : Nat :=
  if t = "minor" then 1
  else if t = "major" then 2
  else if t = "critical" then 3
  else 1

/-- Sample findings used by the witness theorems. -/
def sampleRelease : ReleaseOutput :=
  ⟨"r1", "c1", "default", ⟨"1.0.0", ""⟩, ⟨"2.0.0", ""⟩, true, false⟩

def sampleContainer : ContainerOutput :=
  ⟨"nginx", "1.20", "1.25", true, [⟨"web", "default", "Deployment", "nginx"⟩]⟩

end Nova

namespace Nova

/-! Section: helper lemmas. -/

theorem severity_level_eq_spec (cfg : Config) :
    severityLevel cfg = specThresholdLevel cfg.minSeverity := by
  unfold severityLevel specThresholdLevel
  split_ifs <;> simp_all

theorem anySlashSuffix_iff (f : List Char → Bool) (s : List Char) :
    anySlashSuffix f s = true ↔ ∃ pre suf, s = pre ++ '/' :: suf ∧ f suf = true := by
  induction s with
  | nil =>
    simp only [anySlashSuffix]
    constructor
    · intro h; exact absurd h (by simp)
    · rintro ⟨pre, suf, heq, -⟩
      exact absurd heq (by simp)
  | cons c t ih =>
    simp only [anySlashSuffix, Bool.or_eq_true, Bool.and_eq_true, beq_iff_eq, ih]
    constructor
    · rintro (⟨rfl, hf⟩ | ⟨pre, suf, rfl, hf⟩)
      · exact ⟨[], t, rfl, hf⟩
      · exact ⟨c :: pre, suf, rfl, hf⟩
    · rintro ⟨pre, suf, heq, hf⟩
      cases pre with
      | nil =>
        simp only [List.nil_append] at heq
        injection heq with h1 h2
        subst h1; subst h2
        exact Or.inl ⟨rfl, hf⟩
      | cons a pre' =>
        simp only [List.cons_append] at heq
        injection heq with h1 h2
        subst h1; subst h2
        exact Or.inr ⟨pre', suf, rfl, hf⟩

theorem trailingStar_iff (p s : List Char) :
    trailingStar p s = true ↔ ∃ q rest, q ≠ [] ∧ p = q ++ ['*'] ∧ s = q ++ rest := by
  unfold trailingStar
  simp only [Bool.and_eq_true, decide_eq_true_eq, beq_iff_eq, List.isPrefixOf_iff_prefix]
  constructor
  · rintro ⟨⟨hlen, hlast⟩, hpref⟩
    obtain ⟨rest, hrest⟩ := hpref
    have hp : p ≠ [] := by
      intro hnil; subst hnil; simp at hlast
    have hsplit : p.dropLast ++ [p.getLast hp] = p := List.dropLast_append_getLast hp
    have hstar : p.getLast hp = '*' := by
      have h2 := List.getLast?_eq_getLast p hp
      rw [h2] at hlast
      injection hlast
    refine ⟨p.dropLast, rest, ?_, ?_, hrest.symm⟩
    · intro hnil
      have hl : p.dropLast.length = 0 := by rw [hnil]; rfl
      rw [List.length_dropLast] at hl
      omega
    · rw [← hstar]
      exact hsplit.symm
  · rintro ⟨q, rest, hq, rfl, rfl⟩
    refine ⟨⟨?_, ?_⟩, ?_⟩
    · rcases q with _ | ⟨a, q'⟩
      · exact absurd rfl hq
      · simp
    · simp [List.getLast?_concat]
    · rw [List.dropLast_concat]
      exact List.prefix_append q rest

theorem matchGlob_self (s : List Char) : matchGlob s s = true := by
  rw [matchGlob.eq_def]
  simp

theorem matchGlob_of_trailingStar (p s : List Char) (h : trailingStar p s = true) :
    matchGlob p s = true := by
  rw [matchGlob.eq_def]
  simp [h]

theorem matchGlob_sound : ∀ (p s : List Char), matchGlob p s = true → GlobSpec p s := by
  have key : ∀ (n : Nat) (p s : List Char), p.length ≤ n → matchGlob p s = true →
      GlobSpec p s := by
    intro n
    induction n with
    | zero =>
      intro p s hlen h
      have hp : p = [] := List.eq_nil_of_length_eq_zero (Nat.le_zero.mp hlen)
      subst hp
      rw [matchGlob.eq_def] at h
      simp only [Bool.or_eq_true, beq_iff_eq] at h
      rcases h with ((h1 | h2) | h3) | h4
      · exact absurd h1 (by simp)
      · subst h2; exact GlobSpec.exact []
      · exact absurd h3 (by simp)
      · rw [trailingStar_iff] at h4
        obtain ⟨q, rest, hq, hpq, -⟩ := h4
        exact absurd (congrArg List.length hpq) (by simp)
    | succ n ih =>
      intro p s hlen h
      rw [matchGlob.eq_def] at h
      simp only [Bool.or_eq_true, beq_iff_eq] at h
      rcases h with ((h1 | h2) | h3) | h4
      · subst h1; exact GlobSpec.star s
      · subst h2; exact GlobSpec.exact p
      · split at h3
        case _ x xs =>
          rw [anySlashSuffix_iff] at h3
          obtain ⟨pre, suf, rfl, hf⟩ := h3
          have hlen' : (x :: xs).length ≤ n := by
            simp_all [List.length_cons]
            omega
          exact GlobSpec.slash (x :: xs) pre suf (by simp) (ih (x :: xs) suf hlen' hf)
        case _ => exact absurd h3 (by simp)
      · rw [trailingStar_iff] at h4
        obtain ⟨q, rest, hq, rfl, rfl⟩ := h4
        exact GlobSpec.prefixStar q rest
  intro p s
  exact key p.length p s le_rfl

theorem matchGlob_complete : ∀ {p s : List Char}, GlobSpec p s → matchGlob p s = true := by
  intro p s h
  induction h with
  | star s => rw [matchGlob.eq_def]; simp
  | exact s => exact matchGlob_self s
  | slash x pre suf hx hg ih =>
    rcases x with _ | ⟨x0, xs⟩
    · exact absurd rfl hx
    · rw [matchGlob.eq_def]
      simp only [Bool.or_eq_true]
      refine Or.inl (Or.inr ?_)
      show anySlashSuffix (matchGlob (x0 :: xs)) (pre ++ '/' :: suf) = true
      exact (anySlashSuffix_iff _ _).mpr ⟨pre, suf, rfl, ih⟩
  | prefixStar q rest =>
    rcases q with _ | ⟨q0, qs⟩
    · rw [matchGlob.eq_def]; simp
    · exact matchGlob_of_trailingStar _ _
        ((trailingStar_iff _ _).mpr ⟨q0 :: qs, rest, by simp, rfl, rfl⟩)

end Nova

namespace Nova

/-! Section: the claims. -/

/-- C1: running the Ticket Deduplicator twice in sequence over the same
ActionableSet, against a tracker whose create persists the ticket and whose
search finds open tickets whose title contains the canonical title, results in
exactly one creation on the first run and, for that same finding, a
skip-as-duplicate (no second creation) on the second run.  The hypotheses are
the claim's premises: the canonical title is unaffected by query escaping (so
the tracker's containment search sees the canonical title itself), and the
initial tracker holds no matching open ticket. -/
theorem ticket_dedup_idempotent (r : ReleaseOutput) (st0 : List GhIssue)
    (hesc : escapeSearchQuery (formatHelmIssueTitle r) = formatHelmIssueTitle r)
    (hfresh : (st0.filter (issueMatches (formatHelmIssueTitle r))).length = 0) :
    runHelmIssues novaOps false st0 [r]
      = (st0 ++ [⟨formatHelmIssueTitle r, formatHelmIssueBody r, issueLabels, true⟩],
         [.created (formatHelmIssueTitle r) ("issue-" ++ toString (st0.length + 1))])
    ∧ runHelmIssues novaOps false
        (st0 ++ [⟨formatHelmIssueTitle r, formatHelmIssueBody r, issueLabels, true⟩]) [r]
      = (st0 ++ [⟨formatHelmIssueTitle r, formatHelmIssueBody r, issueLabels, true⟩],
         [.skippedDuplicate (formatHelmIssueTitle r)]) := by
  have hmatch : issueMatches (formatHelmIssueTitle r)
      ⟨formatHelmIssueTitle r, formatHelmIssueBody r, issueLabels, true⟩ = true := by
    simp [issueMatches, issueLabels, labelNovaScan, List.infix_refl]
  constructor
  · simp only [runHelmIssues, createHelmIssue, novaOps]
    simp only [hesc, hfresh]
    simp [runHelmIssues]
  · simp only [runHelmIssues, createHelmIssue, novaOps]
    simp only [hesc, List.filter_append, List.length_append, hfresh]
    simp [hmatch, runHelmIssues]

/-- C1 witness: the sample Helm finding against an initially empty tracker. -/
theorem ticket_dedup_witness :
    (escapeSearchQuery (formatHelmIssueTitle sampleRelease) = formatHelmIssueTitle sampleRelease)
    ∧ ((([] : List GhIssue).filter (issueMatches (formatHelmIssueTitle sampleRelease))).length = 0)
    ∧ runHelmIssues novaOps false [] [sampleRelease]
        = ([] ++ [⟨formatHelmIssueTitle sampleRelease, formatHelmIssueBody sampleRelease,
              issueLabels, true⟩],
           [.created (formatHelmIssueTitle sampleRelease)
              ("issue-" ++ toString (([] : List GhIssue).length + 1))]) :=
  ⟨by decide, rfl, (ticket_dedup_idempotent sampleRelease [] (by decide) rfl).1⟩

/-- C2: a container finding is moved to the SkipSet iff it has at least one
affected workload and every affected workload's namespace is in the
outdated-Helm-namespace set; hence zero-workload findings and findings with a
workload in an uncovered namespace are never skipped. -/
theorem skip_container_iff_all_workloads_covered (c : ContainerOutput) (ns : List String) :
    shouldSkipContainerForHelm c ns = true ↔
      (c.affectedWorkloads ≠ [] ∧ ∀ w ∈ c.affectedWorkloads, w.nspace ∈ ns) := by
  unfold shouldSkipContainerForHelm
  cases ns with
  | nil =>
    simp only [List.length_nil, if_true, reduceIte]
    constructor
    · intro h; exact absurd h (by simp)
    · rintro ⟨hne, hall⟩
      obtain ⟨w, hw⟩ := List.exists_mem_of_ne_nil _ hne
      exact absurd (hall w hw) (by simp)
  | cons n0 ns' =>
    cases hw : c.affectedWorkloads with
    | nil => simp [hw]
    | cons w ws =>
      simp [hw, List.all_eq_true, List.elem_iff]

/-- C2 witness: the sample container, whose single workload namespace is
covered, is skipped. -/
theorem skip_container_witness :
    shouldSkipContainerForHelm sampleContainer ["default"] = true :=
  (skip_container_iff_all_workloads_covered sampleContainer ["default"]).mpr
    ⟨by decide, by decide⟩

/-- C3: whenever either version string fails to parse as a semantic version,
the severity gate passes, for every configured threshold. -/
theorem unparsable_version_passes_gate (cfg : Config) (cur lat : String)
    (h : parseSemver cur.toList = none ∨ parseSemver lat.toList = none) :
    meetsMinSeverity cfg cur lat = true := by
  unfold meetsMinSeverity
  rcases h with h | h
  · rw [h]
  · have h2 : parseSemver lat.data = none := h
    cases hc : parseSemver cur.toList <;> simp [h, h2]

/-- C3 witness: `invalid` does not parse, and neither does a version whose
major component overflows `ParseUint`'s 64-bit range; the gate passes on
both. -/
theorem unparsable_witness :
    (parseSemver "invalid".toList = none ∨ parseSemver "1.0.0".toList = none)
    ∧ meetsMinSeverity {} "invalid" "1.0.0" = true
    ∧ (parseSemver "18446744073709551616.0.0".toList = none
        ∨ parseSemver "1.0.0".toList = none)
    ∧ meetsMinSeverity {} "18446744073709551616.0.0" "1.0.0" = true :=
  ⟨Or.inl (by decide),
    unparsable_version_passes_gate {} "invalid" "1.0.0" (Or.inl (by decide)),
    Or.inl (by decide),
    unparsable_version_passes_gate {} "18446744073709551616.0.0" "1.0.0"
      (Or.inl (by decide))⟩

/-- C4: for parseable versions the computed severity is exactly the
specification's formula (3 on a major bump, else 2 on a minor bump, else 1 on
a patch bump, else 0), the threshold mapping is minor = 1, major = 2,
critical = 3 with unrecognized values treated as minor, and the gate passes
iff severity is at least the threshold level. -/
theorem severity_gate_refines_spec (cfg : Config) (cur lat : String) (c l : Semver)
    (h1 : parseSemver cur.toList = some c) (h2 : parseSemver lat.toList = some l) :
    calculateSeverity c l = specSeverity c l
    ∧ severityLevel cfg = specThresholdLevel cfg.minSeverity
    ∧ (meetsMinSeverity cfg cur lat = true ↔
        specSeverity c l ≥ specThresholdLevel cfg.minSeverity) := by
  refine ⟨rfl, severity_level_eq_spec cfg, ?_⟩
  unfold meetsMinSeverity
  rw [h1, h2]
  rw [show calculateSeverity = specSeverity from rfl, severity_level_eq_spec cfg]
  simp

/-- C4 witness: threshold `major` with a minor bump. -/
theorem severity_gate_witness :
    (parseSemver "1.0.0".toList = some ⟨1, 0, 0, [], []⟩)
    ∧ (parseSemver "1.2.3".toList = some ⟨1, 2, 3, [], []⟩)
    ∧ (meetsMinSeverity { minSeverity := "major" } "1.0.0" "1.2.3" = true ↔
        specSeverity ⟨1, 0, 0, [], []⟩ ⟨1, 2, 3, [], []⟩ ≥ specThresholdLevel "major") :=
  ⟨by decide, by decide,
    (severity_gate_refines_spec { minSeverity := "major" } "1.0.0" "1.2.3"
      ⟨1, 0, 0, [], []⟩ ⟨1, 2, 3, [], []⟩ (by decide) (by decide)).2.2⟩

/-- C5: a latest version matching a chart-specific blacklist pattern for chart
X is excluded when evaluating chart X, while the identical version for a
different chart Y, matching no global pattern and no Y-specific pattern, is
not excluded.  Settled against the spec-modelled `shouldIgnoreChartVersion`. -/
theorem chart_specific_blacklist_override (g : List String)
    (cps : List (String × List String)) (X Y v : String)
    (hX : ((cps.lookup X).getD []).any (fun pat => containsSubstr v pat) = true)
    (hg : g.any (fun pat => containsSubstr v pat) = false)
    (hY : ((cps.lookup Y).getD []).any (fun pat => containsSubstr v pat) = false) :
    shouldIgnoreChartVersion g cps X v = true
    ∧ shouldIgnoreChartVersion g cps Y v = false := by
  unfold shouldIgnoreChartVersion
  rw [hX, hg, hY]
  simp

/-- C5 witness: the `gateway-helm` scenario of `config_test.go`. -/
theorem chart_blacklist_witness :
    (((([("gateway-helm", ["2023.", "2024."])].lookup "gateway-helm").getD []).any
        (fun pat => containsSubstr "2023.9.18" pat) = true)
    ∧ (([] : List String).any (fun pat => containsSubstr "2023.9.18" pat) = false)
    ∧ ((([("gateway-helm", ["2023.", "2024."])].lookup "other-chart").getD []).any
        (fun pat => containsSubstr "2023.9.18" pat) = false))
    ∧ shouldIgnoreChartVersion [] [("gateway-helm", ["2023.", "2024."])]
        "gateway-helm" "2023.9.18" = true
    ∧ shouldIgnoreChartVersion [] [("gateway-helm", ["2023.", "2024."])]
        "other-chart" "2023.9.18" = false :=
  ⟨⟨by decide, by decide, by decide⟩,
    (chart_specific_blacklist_override [] [("gateway-helm", ["2023.", "2024."])]
      "gateway-helm" "other-chart" "2023.9.18" (by decide) (by decide) (by decide)).1,
    (chart_specific_blacklist_override [] [("gateway-helm", ["2023.", "2024."])]
      "gateway-helm" "other-chart" "2023.9.18" (by decide) (by decide) (by decide)).2⟩

end Nova

namespace Nova

/-- C6: glob matching succeeds exactly for the four productions the claim
lists (bare `*`; exact equality; `*/X` with some post-`/` suffix matching `X`
recursively; trailing `*` with the literal prefix), together with the claim's
concrete examples. -/
theorem glob_match_characterization :
    (∀ p s, matchGlob p s = true ↔ GlobSpec p s)
    ∧ matchGlobStr "*/pause:*" "k8s.gcr.io/pause:3.5" = true
    ∧ matchGlobStr "*/pause:*" "registry.io/pause:latest" = true
    ∧ matchGlobStr "*/pause:*" "nginx:latest" = false
    ∧ matchGlobStr "nginx:*" "nginx:1.20" = true
    ∧ matchGlobStr "nginx:*" "redis:6.0" = false
    ∧ matchGlobStr "*" "" = true :=
  ⟨fun p s => ⟨matchGlob_sound p s, matchGlob_complete⟩,
    by decide, by decide, by decide, by decide, by decide, by decide⟩

/-- C7: the single Helm finding r1/c1 with threshold minor and empty ignore
and blacklist lists yields exactly that finding as the ActionableSet, and its
canonical title is the expected string. -/
theorem helm_end_to_end_single_finding :
    (scanHelmFilter { minSeverity := "minor" } [sampleRelease]).2 = [sampleRelease]
    ∧ formatHelmIssueTitle sampleRelease
        = "[Nova] Update Helm chart: r1 (1.0.0 → 2.0.0)" := by
  constructor
  · decide
  · rfl

/-- C8: with dry-run enabled the result never depends on the tracker's create
operation and the tracker state is never changed, for any finding of either
kind; whenever the existence check reports no duplicate, a would-create event
carrying the canonical title is recorded, and that title is the same one a
non-dry-run creation would have used. -/
theorem dry_run_never_creates {σ : Type} (search : σ → String → Option Nat)
    (c₁ c₂ : σ → String → String → List String → Option (σ × String))
    (st : σ) (r : ReleaseOutput) (co : ContainerOutput)
    (hr : search st (escapeSearchQuery (formatHelmIssueTitle r)) = some 0)
    (hc : search st (escapeSearchQuery (formatContainerIssueTitle co)) = some 0) :
    (∀ st' r', createHelmIssue ⟨search, c₁⟩ true st' r'
        = createHelmIssue ⟨search, c₂⟩ true st' r')
    ∧ (∀ st' co', createContainerIssue ⟨search, c₁⟩ true st' co'
        = createContainerIssue ⟨search, c₂⟩ true st' co')
    ∧ (∀ st' r', (createHelmIssue ⟨search, c₁⟩ true st' r').1 = st')
    ∧ (∀ st' co', (createContainerIssue ⟨search, c₁⟩ true st' co').1 = st')
    ∧ (createHelmIssue ⟨search, c₁⟩ true st r).2
        = .wouldCreate (formatHelmIssueTitle r)
    ∧ (∀ st2 url,
        c₁ st (formatHelmIssueTitle r) (formatHelmIssueBody r) issueLabels = some (st2, url) →
        (createHelmIssue ⟨search, c₁⟩ false st r).2
          = .created (formatHelmIssueTitle r) url)
    ∧ (createContainerIssue ⟨search, c₁⟩ true st co).2
        = .wouldCreate (formatContainerIssueTitle co)
    ∧ (∀ st2 url,
        c₁ st (formatContainerIssueTitle co) (formatContainerIssueBody co) issueLabels
            = some (st2, url) →
        (createContainerIssue ⟨search, c₁⟩ false st co).2
          = .created (formatContainerIssueTitle co) url) := by
  refine ⟨?_, ?_, ?_, ?_, ?_, ?_, ?_, ?_⟩
  · intro st' r'
    unfold createHelmIssue
    cases h : search st' (escapeSearchQuery (formatHelmIssueTitle r')) <;> simp [h]
  · intro st' co'
    unfold createContainerIssue
    cases h : search st' (escapeSearchQuery (formatContainerIssueTitle co')) <;> simp [h]
  · intro st' r'
    unfold createHelmIssue
    cases h : search st' (escapeSearchQuery (formatHelmIssueTitle r')) <;>
      (simp [h]; try (split <;> rfl))
  · intro st' co'
    unfold createContainerIssue
    cases h : search st' (escapeSearchQuery (formatContainerIssueTitle co')) <;>
      (simp [h]; try (split <;> rfl))
  · unfold createHelmIssue
    simp [hr]
  · intro st2 url hcr
    unfold createHelmIssue
    simp [hr, hcr]
  · unfold createContainerIssue
    simp [hc]
  · intro st2 url hcr
    unfold createContainerIssue
    simp [hc, hcr]

/-- C8 witness: the sample findings against the empty persistent tracker. -/
theorem dry_run_witness :
    (novaOps.search [] (escapeSearchQuery (formatHelmIssueTitle sampleRelease)) = some 0)
    ∧ (novaOps.search [] (escapeSearchQuery (formatContainerIssueTitle sampleContainer))
        = some 0)
    ∧ (createHelmIssue ⟨novaOps.search, novaOps.create⟩ true [] sampleRelease).2
        = .wouldCreate (formatHelmIssueTitle sampleRelease) :=
  ⟨by decide, by decide,
    (dry_run_never_creates novaOps.search novaOps.create (fun _ _ _ _ => none) []
        sampleRelease sampleContainer (by decide) (by decide)).2.2.2.2.1⟩

/-- C9: when the tracker existence query fails, the item's creation is not
attempted (the state is unchanged, independently of the create operation and
of dry-run mode), and a query error naming the finding's canonical title is
returned; the failure is never treated as no-duplicate-followed-by-create. -/
theorem query_failure_skips_creation {σ : Type} (search : σ → String → Option Nat)
    (c : σ → String → String → List String → Option (σ × String))
    (d : Bool) (st : σ) (r : ReleaseOutput) (co : ContainerOutput)
    (hr : search st (escapeSearchQuery (formatHelmIssueTitle r)) = none)
    (hc : search st (escapeSearchQuery (formatContainerIssueTitle co)) = none) :
    createHelmIssue ⟨search, c⟩ d st r = (st, .queryError (formatHelmIssueTitle r))
    ∧ createContainerIssue ⟨search, c⟩ d st co
        = (st, .queryError (formatContainerIssueTitle co)) := by
  constructor
  · unfold createHelmIssue
    simp [hr]
  · unfold createContainerIssue
    simp [hc]

/-- C9 witness: a tracker whose search always fails. -/
theorem query_failure_witness :
    ((fun (_ : Unit) (_ : String) => (none : Option Nat)) ()
        (escapeSearchQuery (formatHelmIssueTitle sampleRelease)) = none)
    ∧ createHelmIssue ⟨fun _ _ => none, fun _ _ _ _ => none⟩ true () sampleRelease
        = ((), .queryError (formatHelmIssueTitle sampleRelease)) :=
  ⟨rfl, (query_failure_skips_creation (fun _ _ => none) (fun _ _ _ _ => none) true ()
      sampleRelease sampleContainer rfl rfl).1⟩

/-- C10: severity depends only on the numeric major/minor/patch triples of the
parsed versions, and versions whose triples agree (for example versions that
differ only in the prerelease component) get severity 0 and fail the gate at
every threshold. -/
theorem severity_depends_only_on_triples (cfg : Config) (cur lat : String)
    (c l c₂ l₂ : Semver)
    (h1 : parseSemver cur.toList = some c) (h2 : parseSemver lat.toList = some l)
    (ec : c.major = c₂.major ∧ c.minor = c₂.minor ∧ c.patch = c₂.patch)
    (el : l.major = l₂.major ∧ l.minor = l₂.minor ∧ l.patch = l₂.patch) :
    calculateSeverity c l = calculateSeverity c₂ l₂
    ∧ (c.major = l.major → c.minor = l.minor → c.patch = l.patch →
        calculateSeverity c l = 0 ∧ meetsMinSeverity cfg cur lat = false) := by
  obtain ⟨ec1, ec2, ec3⟩ := ec
  obtain ⟨el1, el2, el3⟩ := el
  constructor
  · unfold calculateSeverity
    rw [ec1, ec2, ec3, el1, el2, el3]
  · intro m1 m2 m3
    have hz : calculateSeverity c l = 0 := by
      unfold calculateSeverity
      rw [m1, m2, m3]
      simp
    refine ⟨hz, ?_⟩
    unfold meetsMinSeverity
    rw [h1, h2]
    show decide (calculateSeverity c l ≥ severityLevel cfg) = false
    have hlev : 1 ≤ severityLevel cfg := by
      unfold severityLevel
      split_ifs <;> omega
    rw [hz]
    simp
    omega

/-- C10 witness: `1.0.0-rc1` against `1.0.0` has severity 0 and fails the
gate. -/
theorem severity_triples_witness :
    (parseSemver "1.0.0-rc1".toList = some ⟨1, 0, 0, ['r', 'c', '1'], []⟩)
    ∧ (parseSemver "1.0.0".toList = some ⟨1, 0, 0, [], []⟩)
    ∧ (calculateSeverity ⟨1, 0, 0, ['r', 'c', '1'], []⟩ ⟨1, 0, 0, [], []⟩ = 0
        ∧ meetsMinSeverity {} "1.0.0-rc1" "1.0.0" = false) :=
  ⟨by decide, by decide,
    (severity_depends_only_on_triples {} "1.0.0-rc1" "1.0.0"
      ⟨1, 0, 0, ['r', 'c', '1'], []⟩ ⟨1, 0, 0, [], []⟩
      ⟨1, 0, 0, ['r', 'c', '1'], []⟩ ⟨1, 0, 0, [], []⟩
      (by decide) (by decide) ⟨rfl, rfl, rfl⟩ ⟨rfl, rfl, rfl⟩).2 rfl rfl rfl⟩

end Nova
